import Mathlib

/-!
Verification of the role-based authorization and audit model of the
contract-lifecycle management application ("controle").

The definitions below are a shallow embedding of the backend schema /
row-level-security migration (the SQL migration file) and of the client
pages (`UsersPage`, `AuditLogs`, `DocumentUpload`).  User ids are
modelled as `Nat`, SQL `NULL` as `Option`, and each database table as a
`List` of row structures.
-/

namespace Controle

/-- The `app_role` enum: `CREATE TYPE public.app_role AS ENUM ('admin', 'gestor', 'visualizador')`. -/
inductive Role : Type
  | admin
  | gestor
  | visualizador
deriving DecidableEq, Repr

/-- A SQL data-manipulation operation, as governed by one RLS policy each. -/
inductive Op : Type
  | select
  | insert
  | update
  | delete
deriving DecidableEq, Repr

/-- The tables carrying RLS policies in the migration. -/
inductive Tbl : Type
  | profiles
  | user_roles
  | suppliers
  | contracts
  | documents
  | obligations
  | payments
  | audit_logs
  | notification_settings
deriving DecidableEq, Repr

/-- A row of `public.user_roles` (the columns the policies and queries read). -/
structure UserRoleRow : Type where
  user_id : Nat
  role : Role
deriving DecidableEq, Repr

/-- Embeds `public.has_role(_user_id, _role)`:
`SELECT EXISTS (SELECT 1 FROM public.user_roles WHERE user_id = _user_id AND role = _role)`. -/
def has_role (user_roles : List UserRoleRow) (u : Nat) (r : Role) : Bool :=
  user_roles.any (fun row => row.user_id == u && row.role == r)

/-- The rows returned by `public.get_user_role(_user_id)`:
`SELECT role FROM public.user_roles WHERE user_id = _user_id LIMIT 1`. -/
def get_user_role_query (user_roles : List UserRoleRow) (u : Nat) : List Role :=
  ((user_roles.filter (fun row => row.user_id == u)).map (fun row => row.role)).take 1

/-- `public.get_user_role` as a scalar SQL function: the single row of the
`LIMIT 1` query, or SQL `NULL` when no row exists. -/
def get_user_role (user_roles : List UserRoleRow) (u : Nat) : Option Role :=
  (get_user_role_query user_roles u).head?

/-- Evaluation context of a row-level-security policy: the acting user
(`auth.uid()`), the current contents of `public.user_roles` (consulted by
`has_role`), and the `user_id` column of the row under check (consulted by
the owner-based policies of `profiles` and `notification_settings`). -/
structure RlsCtx : Type where
  uid : Nat
  user_roles : List UserRoleRow
  rowOwner : Nat
deriving Repr

/-- Transcription of the `CREATE POLICY` statements of the migration, one
match arm per policy; a `(table, operation)` pair with no policy is denied
(row-level security is enabled on every table). -/
def rlsAllows (ctx : RlsCtx) (op : Op) (t : Tbl) : Bool :=
  match t, op with
  | .profiles, .select => true
  | .profiles, .update => ctx.uid == ctx.rowOwner
  | .profiles, _ => false
  | .user_roles, .select => true
  | .user_roles, .insert => has_role ctx.user_roles ctx.uid .admin
  | .user_roles, .update => has_role ctx.user_roles ctx.uid .admin
  | .user_roles, .delete => has_role ctx.user_roles ctx.uid .admin
  | .suppliers, .select => true
  | .suppliers, .insert => has_role ctx.user_roles ctx.uid .admin || has_role ctx.user_roles ctx.uid .gestor
  | .suppliers, .update => has_role ctx.user_roles ctx.uid .admin || has_role ctx.user_roles ctx.uid .gestor
  | .suppliers, .delete => has_role ctx.user_roles ctx.uid .admin
  | .contracts, .select => true
  | .contracts, .insert => has_role ctx.user_roles ctx.uid .admin || has_role ctx.user_roles ctx.uid .gestor
  | .contracts, .update => has_role ctx.user_roles ctx.uid .admin || has_role ctx.user_roles ctx.uid .gestor
  | .contracts, .delete => has_role ctx.user_roles ctx.uid .admin
  | .documents, .select => true
  | .documents, .insert => has_role ctx.user_roles ctx.uid .admin || has_role ctx.user_roles ctx.uid .gestor
  | .documents, .update => has_role ctx.user_roles ctx.uid .admin || has_role ctx.user_roles ctx.uid .gestor
  | .documents, .delete => has_role ctx.user_roles ctx.uid .admin
  | .obligations, .select => true
  | .obligations, .insert => has_role ctx.user_roles ctx.uid .admin || has_role ctx.user_roles ctx.uid .gestor
  | .obligations, .update => has_role ctx.user_roles ctx.uid .admin || has_role ctx.user_roles ctx.uid .gestor
  | .obligations, .delete => has_role ctx.user_roles ctx.uid .admin
  | .payments, .select => true
  | .payments, .insert => has_role ctx.user_roles ctx.uid .admin || has_role ctx.user_roles ctx.uid .gestor
  | .payments, .update => has_role ctx.user_roles ctx.uid .admin || has_role ctx.user_roles ctx.uid .gestor
  | .payments, .delete => has_role ctx.user_roles ctx.uid .admin
  | .audit_logs, .select => has_role ctx.user_roles ctx.uid .admin
  | .audit_logs, .insert => true
  | .audit_logs, _ => false
  | .notification_settings, .select => ctx.uid == ctx.rowOwner
  | .notification_settings, .update => ctx.uid == ctx.rowOwner
  | .notification_settings, .insert => ctx.uid == ctx.rowOwner
  | .notification_settings, .delete => false

/-- The policy matrix of spec section 4.2, written from the spec's words:
given the actor's resolved role and whether the actor owns the row, each
cell is "any authenticated" (`true`), "admin only", "admin/gestor",
"owner only", or a dash (`false`). -/
def specMatrixAllows (r : Role) (owner : Bool) (op : Op) (t : Tbl) : Bool :=
  match t, op with
  | .profiles, .select => true
  | .profiles, .insert => false
  | .profiles, .update => owner
  | .profiles, .delete => false
  | .user_roles, .select => true
  | .user_roles, _ => r == .admin
  | .suppliers, .select => true
  | .suppliers, .insert => r == .admin || r == .gestor
  | .suppliers, .update => r == .admin || r == .gestor
  | .suppliers, .delete => r == .admin
  | .contracts, .select => true
  | .contracts, .insert => r == .admin || r == .gestor
  | .contracts, .update => r == .admin || r == .gestor
  | .contracts, .delete => r == .admin
  | .documents, .select => true
  | .documents, .insert => r == .admin || r == .gestor
  | .documents, .update => r == .admin || r == .gestor
  | .documents, .delete => r == .admin
  | .obligations, .select => true
  | .obligations, .insert => r == .admin || r == .gestor
  | .obligations, .update => r == .admin || r == .gestor
  | .obligations, .delete => r == .admin
  | .payments, .select => true
  | .payments, .insert => r == .admin || r == .gestor
  | .payments, .update => r == .admin || r == .gestor
  | .payments, .delete => r == .admin
  | .audit_logs, .select => r == .admin
  | .audit_logs, .insert => true
  | .audit_logs, _ => false
  | .notification_settings, .delete => false
  | .notification_settings, _ => owner

/-- The five domain tables of the spec's glossary. -/
def domainTables : List Tbl :=
  [.suppliers, .contracts, .documents, .obligations, .payments]

/-- The RLS decision for an actor whose only `user_roles` row carries role
`r`, on the role-gated (non-owner-based) tables. -/
def roleAllows (r : Role) (op : Op) (t : Tbl) : Bool :=
  rlsAllows ⟨0, [⟨0, r⟩], 1⟩ op t

/-- Modelled from the spec: the `AuthContext` provider that derives the
capability booleans is not among the source files (every page only consumes
`useAuth()`); spec section 3 defines the capability as
"canEdit = role is admin or gestor". -/
def canEdit (r : Role) : Bool :=
  r == .admin || r == .gestor

/-- Modelled from the spec: companion capability of `canEdit`,
"isAdmin = role = admin" (spec section 3). -/
def isAdmin (r : Role) : Bool :=
  r == .admin

/-- The client-side role resolution of `fetchUsers` (`UsersPage`):
`roles?.find((r) => r.user_id === profile.user_id)` with fallback
`(userRole?.role as AppRole) || "visualizador"`. -/
def resolveRole (user_roles : List UserRoleRow) (u : Nat) : Role :=
  match user_roles.find? (fun row => row.user_id == u) with
  | some row => row.role
  | none => .visualizador

/-- Modelled from the spec: the role store query may fail (`none`), and per
spec section 4.1 a "resolution query failure" is treated as "no role known",
resolving to the fallback role exactly as `resolveRole` does when no row
matches. -/
def resolveRoleResult (res : Option (List UserRoleRow)) (u : Nat) : Role :=
  match res with
  | some rows => resolveRole rows u
  | none => .visualizador

/-- A freshly inserted `auth.users` row as seen by the `handle_new_user`
trigger: its id, email, and the optional `raw_user_meta_data` field
`full_name`. -/
structure Identity : Type where
  id : Nat
  email : String
  meta_full_name : Option String
deriving DecidableEq, Repr

/-- A row of `public.profiles` (the columns `handle_new_user` writes;
`department` and `phone` have no default and stay NULL). -/
structure ProfileRow : Type where
  user_id : Nat
  full_name : String
  email : String
  department : Option String
  phone : Option String
deriving DecidableEq, Repr

/-- A row of `public.notification_settings` with its column defaults
`email_enabled BOOLEAN DEFAULT true`,
`days_before_expiry INTEGER ARRAY DEFAULT 7, 15, 30` and
`weekly_summary BOOLEAN DEFAULT true`. -/
structure NotificationSettingsRow : Type where
  user_id : Nat
  email_enabled : Bool
  days_before_expiry : List Nat
  weekly_summary : Bool
deriving DecidableEq, Repr

/-- The three tables touched by signup provisioning. -/
structure DB : Type where
  profiles : List ProfileRow
  user_roles : List UserRoleRow
  notification_settings : List NotificationSettingsRow
deriving DecidableEq, Repr

/-- The `handle_new_user` trigger body: three INSERTs executed in one
transaction.  The schema's unique constraints (`profiles.user_id UNIQUE`,
`UNIQUE (user_id, role)` on `user_roles`, `notification_settings.user_id
UNIQUE`) make any re-insert for the same identity raise, which aborts the
whole transaction, so the function either appends all three rows or fails
leaving the database unchanged. -/
def handle_new_user (db : DB) (new : Identity) : Except Unit DB :=
  if db.profiles.any (fun p => p.user_id == new.id) then
    .error ()
  else if db.user_roles.any (fun r => r.user_id == new.id && r.role == Role.visualizador) then
    .error ()
  else if db.notification_settings.any (fun n => n.user_id == new.id) then
    .error ()
  else
    .ok
      { profiles := db.profiles ++ [⟨new.id, new.meta_full_name.getD "", new.email, none, none⟩]
        user_roles := db.user_roles ++ [⟨new.id, Role.visualizador⟩]
        notification_settings := db.notification_settings ++ [⟨new.id, true, [7, 15, 30], true⟩] }

/-- The database state after a successful run of `handle_new_user`. -/
def provisionedDB (db : DB) (new : Identity) : DB where
  profiles := db.profiles ++ [⟨new.id, new.meta_full_name.getD "", new.email, none, none⟩]
  user_roles := db.user_roles ++ [⟨new.id, Role.visualizador⟩]
  notification_settings := db.notification_settings ++ [⟨new.id, true, [7, 15, 30], true⟩]

/-- A row of `public.audit_logs` (the columns the `AuditLogs` page reads);
`user_id` and `record_id` are nullable, `created_at` is a timestamp. -/
structure AuditLogRow : Type where
  id : Nat
  user_id : Option Nat
  action : String
  table_name : String
  record_id : Option String
  created_at : Nat
deriving DecidableEq, Repr

/-- An audit entry as the page displays it after the client-side join:
the raw row plus the resolved actor name. -/
structure AuditLogDisplay : Type where
  row : AuditLogRow
  user_name : String
deriving DecidableEq, Repr

/-- Descending creation-time order, the `order("created_at", ascending: false)`
of the audit query. -/
def createdDescRel : AuditLogRow → AuditLogRow → Prop :=
  fun a b => b.created_at ≤ a.created_at

instance : DecidableRel createdDescRel :=
  fun a b => Nat.decLe b.created_at a.created_at

instance : IsTotal AuditLogRow createdDescRel :=
  ⟨fun a b => Nat.le_total b.created_at a.created_at⟩

instance : IsTrans AuditLogRow createdDescRel :=
  ⟨fun _ _ _ hab hbc => Nat.le_trans hbc hab⟩

/-- The backend's ordering of the audit query, modelled as a sort by
descending `created_at`. -/
def sortByCreatedDesc (audit_logs : List AuditLogRow) : List AuditLogRow :=
  List.insertionSort createdDescRel audit_logs

/-- The actor-name join of `fetchData` in `AuditLogs`:
`profilesResponse.data?.find((p) => p.user_id === log.user_id)` and
`user_name: profile?.full_name || "Sistema"` (a JavaScript or-else, so a
missing profile, a null actor id, and an empty profile name all fall back
to the literal "Sistema"). -/
def displayUserName (profiles : List ProfileRow) (log : AuditLogRow) : String :=
  match profiles.find? (fun p => log.user_id == some p.user_id) with
  | some p => if p.full_name == "" then "Sistema" else p.full_name
  | none => "Sistema"

/-- The audit fetch of `AuditLogs.fetchData`: the log rows ordered by
`created_at` descending, capped by `limit(500)`, each joined with its
actor display name. -/
def fetchAuditData (audit_logs : List AuditLogRow) (profiles : List ProfileRow) :
    List AuditLogDisplay :=
  ((sortByCreatedDesc audit_logs).take 500).map (fun log => ⟨log, displayUserName profiles log⟩)

/-- Character-list version of the JavaScript `String.prototype.startsWith`
used as the base case of substring containment. -/
def charsStart : List Char → List Char → Bool
  | [], _ => true
  | _ :: _, [] => false
  | a :: as, b :: bs => a == b && charsStart as bs

/-- Character-list version of the JavaScript `String.prototype.includes`:
does the needle occur as a contiguous substring of the haystack? -/
def charsContain (needle : List Char) : List Char → Bool
  | [] => charsStart needle []
  | b :: bs => charsStart needle (b :: bs) || charsContain needle bs

/-- Lowering a string character by character, the JavaScript
`String.prototype.toLowerCase` of the page's search filter. -/
def lowerChars (s : String) : List Char :=
  s.data.map Char.toLower

/-- Case-insensitive substring test, the `a.toLowerCase().includes(b.toLowerCase())`
pattern of the page's search filter. -/
def lcContains (hay needle : String) : Bool :=
  charsContain (lowerChars needle) (lowerChars hay)

/-- The `record_id?.toLowerCase().includes(...)` disjunct of the search
filter: a null record id never matches. -/
def recordIdMatches (term : String) : Option String → Bool
  | some rid => lcContains rid term
  | none => false

/-- The client-side `filteredLogs` of the `AuditLogs` page: free-text
search over actor name, table name and record id, and exact-match action
and table filters with the sentinel value "all". -/
def filteredLogs (logs : List AuditLogDisplay) (searchTerm actionFilter tableFilter : String) :
    List AuditLogDisplay :=
  logs.filter (fun d =>
    (lcContains d.user_name searchTerm
      || lcContains d.row.table_name searchTerm
      || recordIdMatches searchTerm d.row.record_id)
    && (actionFilter == "all" || d.row.action == actionFilter)
    && (tableFilter == "all" || d.row.table_name == tableFilter))

/-- A user as the `UsersPage` lists it (the fields its role dialog reads). -/
structure UserWithRole : Type where
  user_id : Nat
  full_name : String
  role : Role
deriving DecidableEq, Repr

/-- The `roleLabels` record of `UsersPage`. -/
def roleLabel : Role → String
  | .admin => "Administrador"
  | .gestor => "Gestor"
  | .visualizador => "Visualizador"

/-- The component state of `UsersPage` together with its observable
effects: toasts shown, `user_roles` update requests issued to the backend,
and refetches of the user list. -/
structure UsersState : Type where
  selectedUser : Option UserWithRole
  newRole : Option Role
  isDialogOpen : Bool
  errorToasts : List String
  successToasts : List String
  updateRequests : List (Nat × Role)
  refetches : Nat
deriving DecidableEq, Repr

/-- `openRoleDialog` of `UsersPage`: a self-target
(`userToEdit.user_id === user?.id`) shows an error toast and returns
before touching the dialog state; otherwise the target is selected and the
dialog opens. -/
def openRoleDialog (st : UsersState) (currentUser : Option Nat) (userToEdit : UserWithRole) :
    UsersState :=
  if (match currentUser with
      | some uid => userToEdit.user_id == uid
      | none => false) then
    { st with errorToasts := st.errorToasts ++ ["Você não pode alterar sua própria permissão"] }
  else
    { st with selectedUser := some userToEdit, newRole := some userToEdit.role,
              isDialogOpen := true }

/-- The backend `update(role).eq("user_id", uid)` on `user_roles`: every
row of the target user gets the new role; updating zero rows is not an
error. -/
def updateUserRole (rows : List UserRoleRow) (uid : Nat) (r : Role) : List UserRoleRow :=
  rows.map (fun row => if row.user_id == uid then { row with role := r } else row)

/-- `handleRoleChange` of `UsersPage`: a guard returns when no user or role
is selected; otherwise the update request is issued, a backend failure
shows an error toast and leaves everything else intact, and success shows
a success toast, closes the dialog, clears the selection and refetches. -/
def handleRoleChange (st : UsersState) (db : List UserRoleRow) (backendFails : Bool) :
    UsersState × List UserRoleRow :=
  match st.selectedUser, st.newRole with
  | some sel, some nr =>
    if backendFails then
      ({ st with updateRequests := st.updateRequests ++ [(sel.user_id, nr)],
                 errorToasts := st.errorToasts ++ ["Erro ao atualizar permissão"] }, db)
    else
      ({ st with updateRequests := st.updateRequests ++ [(sel.user_id, nr)],
                 successToasts := st.successToasts ++
                   ["Permissão de " ++ sel.full_name ++ " atualizada para " ++ roleLabel nr],
                 isDialogOpen := false, selectedUser := none, newRole := none,
                 refetches := st.refetches + 1 }, updateUserRole db sel.user_id nr)
  | _, _ => (st, db)

/-- A row of `public.documents` as `DocumentUpload` reads and writes it. -/
structure DocRow : Type where
  id : Nat
  contract_id : Nat
  file_name : String
  file_path : String
  file_size : Nat
  file_type : String
  uploaded_by : Option Nat
deriving DecidableEq, Repr

/-- The observable outcome of a `DocumentUpload` mutation: the component's
document list, the storage bucket contents, the `documents` table, and
which toast was shown. -/
structure DocMutationOutcome : Type where
  uiDocs : List DocRow
  storage : List String
  dbDocs : List DocRow
  errorShown : Bool
  successShown : Bool
deriving DecidableEq, Repr

/-- `handleDelete` of `DocumentUpload`: first `storage.remove` on the file
path, then the `documents` row delete; a thrown error at either step jumps
to the catch block (error toast, UI list untouched), and only full success
filters the row out of the UI list.  The two failure flags model the two
backend calls failing. -/
def handleDelete (uiDocs : List DocRow) (storage : List String) (dbDocs : List DocRow)
    (doc : DocRow) (storageFails dbFails : Bool) : DocMutationOutcome :=
  if storageFails then
    ⟨uiDocs, storage, dbDocs, true, false⟩
  else
    let storage1 := storage.filter (fun p => !(p == doc.file_path))
    if dbFails then
      ⟨uiDocs, storage1, dbDocs, true, false⟩
    else
      ⟨uiDocs.filter (fun d => !(d.id == doc.id)), storage1,
       dbDocs.filter (fun d => !(d.id == doc.id)), false, true⟩

/-- `handleUpload` of `DocumentUpload`: client-side validation (PDF only,
at most 50MB), then the storage upload, then the `documents` insert; a
failure at any step shows an error toast and leaves the UI list untouched,
and success refetches the contract's documents (modelled as the new table
filtered by contract id, the fetch's row set). -/
def handleUpload (uiDocs : List DocRow) (storage : List String) (dbDocs : List DocRow)
    (contractId : Nat) (fileName fileType : String) (fileSize : Nat) (timestamp : Nat)
    (uploader : Option Nat) (nextId : Nat) (storageFails dbFails : Bool) : DocMutationOutcome :=
  if !(fileType == "application/pdf") then
    ⟨uiDocs, storage, dbDocs, true, false⟩
  else if 50 * 1024 * 1024 < fileSize then
    ⟨uiDocs, storage, dbDocs, true, false⟩
  else if storageFails then
    ⟨uiDocs, storage, dbDocs, true, false⟩
  else
    let path := toString contractId ++ "/" ++ toString timestamp ++ "_" ++ fileName
    let storage1 := storage ++ [path]
    if dbFails then
      ⟨uiDocs, storage1, dbDocs, true, false⟩
    else
      let db1 := dbDocs ++ [⟨nextId, contractId, fileName, path, fileSize, fileType, uploader⟩]
      ⟨db1.filter (fun d => d.contract_id == contractId), storage1, db1, false, true⟩

/-- A concrete document row used by the concrete-input theorems. -/
def sampleDoc : DocRow :=
  ⟨1, 7, "a.pdf", "7/1_a.pdf", 100, "application/pdf", some 2⟩

end Controle

namespace Controle

/-- C1: for a single-role actor, the RLS policies decide every
(role, operation, table) triple exactly as the policy matrix of spec
section 4.2 tabulates it. -/
theorem rls_matches_spec_matrix (uid ownerUid : Nat) (r : Role) (op : Op) (t : Tbl) :
    rlsAllows ⟨uid, [⟨uid, r⟩], ownerUid⟩ op t = specMatrixAllows r (uid == ownerUid) op t := by
  cases r <;> cases op <;> cases t <;>
    simp [rlsAllows, specMatrixAllows, has_role]

/-- C2: on every domain table the set of roles allowed to delete is exactly
the singleton admin, every role allowed to delete may also insert and
update, and some role (gestor) may insert and update but not delete, so
delete is strictly stricter than insert/update. -/
theorem delete_stricter_than_update (t : Tbl) (ht : t ∈ domainTables) :
    (∀ r : Role, roleAllows r .delete t = (r == Role.admin))
    ∧ (∀ r : Role, roleAllows r .delete t = true →
        roleAllows r .insert t = true ∧ roleAllows r .update t = true)
    ∧ (∃ r : Role, roleAllows r .insert t = true ∧ roleAllows r .update t = true
        ∧ roleAllows r .delete t = false) := by
  simp only [domainTables, List.mem_cons, List.mem_singleton, List.not_mem_nil, or_false] at ht
  rcases ht with h | h | h | h | h <;> subst h <;>
    exact ⟨fun r => by cases r <;> decide,
           fun r => by cases r <;> decide,
           ⟨Role.gestor, by decide, by decide, by decide⟩⟩

/-- Witness for C2 at the concrete table `suppliers`. -/
theorem delete_stricter_than_update_witness :
    roleAllows Role.gestor Op.delete Tbl.suppliers = (Role.gestor == Role.admin)
    ∧ roleAllows Role.admin Op.insert Tbl.suppliers = true ∧ roleAllows Role.admin Op.update Tbl.suppliers = true :=
  ⟨(delete_stricter_than_update Tbl.suppliers (by decide)).1 Role.gestor,
   (delete_stricter_than_update Tbl.suppliers (by decide)).2.1 Role.admin (by decide)⟩

/-- C3: the derived capability booleans are pure functions of the resolved
role with `canEdit` true exactly on admin and gestor and `isAdmin` true
exactly on admin; moreover `canEdit` coincides with the backend policy
for insert and update on every domain table. -/
theorem capability_booleans (r : Role) :
    (canEdit r = true ↔ (r = Role.admin ∨ r = Role.gestor))
    ∧ (isAdmin r = true ↔ r = Role.admin)
    ∧ (∀ t ∈ domainTables, roleAllows r .insert t = canEdit r
        ∧ roleAllows r .update t = canEdit r) := by
  refine ⟨?_, ?_, ?_⟩
  · cases r <;> simp [canEdit]
  · cases r <;> simp [isAdmin]
  · intro t ht
    simp only [domainTables, List.mem_cons, List.mem_singleton, List.not_mem_nil, or_false] at ht
    rcases ht with h | h | h | h | h <;> subst h <;> cases r <;> exact ⟨by decide, by decide⟩

/-- Witness for C3 at role gestor and table contracts. -/
theorem capability_booleans_witness :
    canEdit Role.gestor = true ∧ roleAllows Role.gestor Op.insert Tbl.contracts = canEdit Role.gestor :=
  ⟨(capability_booleans Role.gestor).1.mpr (Or.inr rfl),
   ((capability_booleans Role.gestor).2.2 Tbl.contracts (by decide)).1⟩

/-- C4: role resolution yields at most one role (the backend query carries
LIMIT 1); when no role row exists for the user, or the resolution query
fails, the resolved role is the visualizador fallback and the edit
capability derived from it is denied (fail closed). -/
theorem role_resolution_fails_closed (res : Option (List UserRoleRow)) (u : Nat) :
    (∀ rows, res = some rows → (get_user_role_query rows u).length ≤ 1)
    ∧ (∀ rows, res = some rows → (∀ row ∈ rows, row.user_id ≠ u) →
        resolveRoleResult res u = Role.visualizador)
    ∧ (res = none → resolveRoleResult res u = Role.visualizador)
    ∧ ((res = none ∨ ∃ rows, res = some rows ∧ ∀ row ∈ rows, row.user_id ≠ u) →
        canEdit (resolveRoleResult res u) = false) := by
  have hnone : ∀ rows : List UserRoleRow, (∀ row ∈ rows, row.user_id ≠ u) →
      resolveRole rows u = Role.visualizador := by
    intro rows hrows
    have : rows.find? (fun row => row.user_id == u) = none := by
      rw [List.find?_eq_none]
      intro row hrow
      simpa using hrows row hrow
    simp [resolveRole, this]
  refine ⟨?_, ?_, ?_, ?_⟩
  · intro rows hres
    exact List.length_take_le 1 _
  · intro rows hres hrows
    subst hres
    simpa [resolveRoleResult] using hnone rows hrows
  · intro hres
    subst hres
    rfl
  · rintro (hres | ⟨rows, hres, hrows⟩) <;> subst hres
    · rfl
    · simp [resolveRoleResult, hnone rows hrows, canEdit]

/-- Witness for C4: a failed query and a role store with no row for user 7
both resolve to visualizador and deny edit. -/
theorem role_resolution_fails_closed_witness :
    resolveRoleResult none 7 = Role.visualizador
    ∧ canEdit (resolveRoleResult none 7) = false
    ∧ resolveRoleResult (some [⟨3, Role.admin⟩]) 7 = Role.visualizador
    ∧ (get_user_role_query [⟨3, Role.admin⟩] 7).length ≤ 1 :=
  ⟨(role_resolution_fails_closed none 7).2.2.1 rfl,
   (role_resolution_fails_closed none 7).2.2.2 (Or.inl rfl),
   (role_resolution_fails_closed (some [⟨3, Role.admin⟩]) 7).2.1 _ rfl (by decide),
   (role_resolution_fails_closed (some [⟨3, Role.admin⟩]) 7).1 _ rfl⟩

/-- C5: for a new identity (no row in any of the three tables), signup
provisioning succeeds and afterwards exactly one profile (name and email
from the identity, department and phone NULL), exactly one visualizador
role row and exactly one notification-settings row with defaults exist for
that identity; re-running provisioning for the same identity fails on the
unique constraints, aborting the transaction, so no duplicate rows are
ever created. -/
theorem signup_provisioning (db : DB) (new : Identity)
    (hp : ∀ p ∈ db.profiles, p.user_id ≠ new.id)
    (hr : ∀ r ∈ db.user_roles, r.user_id ≠ new.id)
    (hn : ∀ n ∈ db.notification_settings, n.user_id ≠ new.id) :
    handle_new_user db new = .ok (provisionedDB db new)
    ∧ (provisionedDB db new).profiles.filter (fun p => p.user_id == new.id)
        = [⟨new.id, new.meta_full_name.getD "", new.email, none, none⟩]
    ∧ (provisionedDB db new).user_roles.filter (fun r => r.user_id == new.id)
        = [⟨new.id, Role.visualizador⟩]
    ∧ (provisionedDB db new).notification_settings.filter (fun n => n.user_id == new.id)
        = [⟨new.id, true, [7, 15, 30], true⟩]
    ∧ handle_new_user (provisionedDB db new) new = .error () := by
  have hp' : db.profiles.any (fun p => p.user_id == new.id) = false := by
    simp only [List.any_eq_false]
    intro p hmem
    simpa using hp p hmem
  have hr' : db.user_roles.any (fun r => r.user_id == new.id && r.role == Role.visualizador) = false := by
    simp only [List.any_eq_false]
    intro r hmem
    simp [hr r hmem]
  have hn' : db.notification_settings.any (fun n => n.user_id == new.id) = false := by
    simp only [List.any_eq_false]
    intro n hmem
    simpa using hn n hmem
  refine ⟨?_, ?_, ?_, ?_, ?_⟩
  · simp [handle_new_user, provisionedDB, hp', hr', hn']
  · rw [provisionedDB, List.filter_append, List.filter_eq_nil_iff.mpr, List.nil_append]
    · simp
    · intro p hmem
      simpa using hp p hmem
  · rw [provisionedDB, List.filter_append, List.filter_eq_nil_iff.mpr, List.nil_append]
    · simp
    · intro r hmem
      simpa using hr r hmem
  · rw [provisionedDB, List.filter_append, List.filter_eq_nil_iff.mpr, List.nil_append]
    · simp
    · intro n hmem
      simpa using hn n hmem
  · simp [handle_new_user, provisionedDB, List.any_append]

/-- Witness for C5: provisioning user 1 into the empty database. -/
theorem signup_provisioning_witness :
    handle_new_user ⟨[], [], []⟩ ⟨1, "user@example.com", none⟩
      = .ok (provisionedDB ⟨[], [], []⟩ ⟨1, "user@example.com", none⟩)
    ∧ handle_new_user (provisionedDB ⟨[], [], []⟩ ⟨1, "user@example.com", none⟩)
        ⟨1, "user@example.com", none⟩ = .error () :=
  ⟨(signup_provisioning ⟨[], [], []⟩ ⟨1, "user@example.com", none⟩
      (by simp) (by simp) (by simp)).1,
   (signup_provisioning ⟨[], [], []⟩ ⟨1, "user@example.com", none⟩
      (by simp) (by simp) (by simp)).2.2.2.2⟩

/-- The prefix test on character lists agrees with `List.IsPrefix`. -/
theorem charsStart_iff (n : List Char) : ∀ h : List Char, charsStart n h = true ↔ n <+: h := by
  induction n with
  | nil =>
    intro h
    simp [charsStart]
  | cons a as ih =>
    intro h
    cases h with
    | nil => simp [charsStart]
    | cons b bs => simp [charsStart, List.cons_prefix_cons, ih bs, and_comm]

/-- The containment test on character lists agrees with `List.IsInfix`. -/
theorem charsContain_iff (n : List Char) : ∀ h : List Char, charsContain n h = true ↔ n <:+: h := by
  intro h
  induction h with
  | nil =>
    simp [charsContain, charsStart_iff]
  | cons b bs ih =>
    simp [charsContain, charsStart_iff, ih, List.infix_cons_iff]

/-- The empty needle is contained in every haystack. -/
theorem charsContain_nil (h : List Char) : charsContain [] h = true := by
  cases h <;> simp [charsContain, charsStart]

/-- C6 counterexample: an audit entry with a null actor id and no matching
profile is rendered with the literal label "Sistema", which is not the
label "System" stated by the claim. -/
theorem audit_actor_label_counterexample :
    (fetchAuditData [⟨0, none, "INSERT", "contracts", none, 0⟩] []).map
        (fun d => d.user_name) = ["Sistema"]
    ∧ "Sistema" ≠ "System" := by
  constructor
  · rfl
  · decide

/-- C6 amended: the audit query returns at most 500 entries, ordered by
creation time descending, and every entry whose actor id matches no
profile (a null actor id included) is rendered with the actor label
"Sistema" (the code's literal; the claim said "System"). -/
theorem audit_query_cap_order_label (audit_logs : List AuditLogRow) (profiles : List ProfileRow) :
    (fetchAuditData audit_logs profiles).length ≤ 500
    ∧ (fetchAuditData audit_logs profiles).Pairwise
        (fun a b => b.row.created_at ≤ a.row.created_at)
    ∧ ∀ d ∈ fetchAuditData audit_logs profiles,
        (∀ p ∈ profiles, d.row.user_id ≠ some p.user_id) → d.user_name = "Sistema" := by
  refine ⟨?_, ?_, ?_⟩
  · rw [fetchAuditData, List.length_map]
    exact List.length_take_le 500 (sortByCreatedDesc audit_logs)
  · have hs : (sortByCreatedDesc audit_logs).Pairwise createdDescRel :=
      List.sorted_insertionSort createdDescRel audit_logs
    have ht : ((sortByCreatedDesc audit_logs).take 500).Pairwise createdDescRel :=
      hs.sublist (List.take_sublist 500 _)
    rw [fetchAuditData, List.pairwise_map]
    exact ht
  · intro d hd hnone
    rcases List.mem_map.mp hd with ⟨log, _, rfl⟩
    have hfind : profiles.find? (fun p => log.user_id == some p.user_id) = none := by
      rw [List.find?_eq_none]
      intro p hp
      simpa using hnone p hp
    simp [displayUserName, hfind]

/-- Witness for C6 (amended) on a concrete two-entry log and one profile. -/
theorem audit_query_cap_order_label_witness :
    (fetchAuditData [⟨0, some 5, "INSERT", "contracts", none, 3⟩,
        ⟨1, none, "DELETE", "suppliers", none, 9⟩]
      [⟨4, "Ana", "ana@example.com", none, none⟩]).length ≤ 500
    ∧ (⟨⟨1, none, "DELETE", "suppliers", none, 9⟩, "Sistema"⟩ : AuditLogDisplay).user_name
        = "Sistema" :=
  ⟨(audit_query_cap_order_label
      [⟨0, some 5, "INSERT", "contracts", none, 3⟩, ⟨1, none, "DELETE", "suppliers", none, 9⟩]
      [⟨4, "Ana", "ana@example.com", none, none⟩]).1,
   (audit_query_cap_order_label
      [⟨0, some 5, "INSERT", "contracts", none, 3⟩, ⟨1, none, "DELETE", "suppliers", none, 9⟩]
      [⟨4, "Ana", "ana@example.com", none, none⟩]).2.2
      ⟨⟨1, none, "DELETE", "suppliers", none, 9⟩, "Sistema"⟩ (by decide) (by decide)⟩

/-- C7: the client-side filter keeps exactly the fetched entries whose actor
display name, table name or record id contains the search term as a
case-insensitive substring and whose action and table match the exact
filters unless these are "all"; with an empty term and both filters "all"
the filtered list is the fetched list. -/
theorem audit_filter_characterization :
    (∀ (logs : List AuditLogDisplay) (term af tf : String) (d : AuditLogDisplay),
      d ∈ filteredLogs logs term af tf ↔
        d ∈ logs
        ∧ (lowerChars term <:+: lowerChars d.user_name
            ∨ lowerChars term <:+: lowerChars d.row.table_name
            ∨ ∃ rid, d.row.record_id = some rid ∧ lowerChars term <:+: lowerChars rid)
        ∧ (af = "all" ∨ d.row.action = af)
        ∧ (tf = "all" ∨ d.row.table_name = tf))
    ∧ ∀ logs, filteredLogs logs "" "all" "all" = logs := by
  have hrid : ∀ (term : String) (o : Option String),
      recordIdMatches term o = true ↔ ∃ rid, o = some rid ∧ lowerChars term <:+: lowerChars rid := by
    intro term o
    cases o <;> simp [recordIdMatches, lcContains, charsContain_iff]
  constructor
  · intro logs term af tf d
    rw [filteredLogs, List.mem_filter]
    simp [lcContains, charsContain_iff, hrid, and_assoc, or_assoc]
  · intro logs
    rw [filteredLogs, List.filter_eq_self]
    intro d _
    have h1 : lcContains d.user_name "" = true := charsContain_nil _
    simp [h1]

/-- Witness for C7: a concrete entry survives the search term "sis" (a
case-insensitive substring of its "Sistema" actor label), and the neutral
filter keeps a concrete list unchanged. -/
theorem audit_filter_characterization_witness :
    (⟨⟨0, none, "INSERT", "contracts", none, 0⟩, "Sistema"⟩ : AuditLogDisplay) ∈
      filteredLogs [⟨⟨0, none, "INSERT", "contracts", none, 0⟩, "Sistema"⟩] "sis" "all" "all"
    ∧ filteredLogs [⟨⟨0, none, "INSERT", "contracts", none, 0⟩, "Sistema"⟩] "" "all" "all"
        = [⟨⟨0, none, "INSERT", "contracts", none, 0⟩, "Sistema"⟩] :=
  ⟨(audit_filter_characterization.1 _ "sis" "all" "all" _).mpr
      ⟨by decide, Or.inl (by decide), Or.inl rfl, Or.inl rfl⟩,
   audit_filter_characterization.2 _⟩

/-- Shared helper: the client role resolution falls back to visualizador
when the role store has no row for the user. -/
theorem resolveRole_of_no_row (rows : List UserRoleRow) (u : Nat)
    (h : ∀ row ∈ rows, row.user_id ≠ u) : resolveRole rows u = Role.visualizador := by
  have hfind : rows.find? (fun row => row.user_id == u) = none := by
    rw [List.find?_eq_none]
    intro row hrow
    simpa using h row hrow
  simp [resolveRole, hfind]

/-- C8: when an admin targets their own user id, `openRoleDialog` shows an
error toast and returns early: the dialog does not open, no user stays
selected, and a subsequent `handleRoleChange` is a no-op that issues no
`user_roles` update request. -/
theorem self_role_change_blocked (st : UsersState) (uid : Nat) (target : UserWithRole)
    (hsel : st.selectedUser = none) (hdlg : st.isDialogOpen = false)
    (hself : target.user_id = uid) :
    (openRoleDialog st (some uid) target).isDialogOpen = false
    ∧ (openRoleDialog st (some uid) target).selectedUser = none
    ∧ (openRoleDialog st (some uid) target).errorToasts
        = st.errorToasts ++ ["Você não pode alterar sua própria permissão"]
    ∧ (openRoleDialog st (some uid) target).updateRequests = st.updateRequests
    ∧ ∀ (db : List UserRoleRow) (b : Bool),
        handleRoleChange (openRoleDialog st (some uid) target) db b
          = (openRoleDialog st (some uid) target, db) := by
  have hopen : openRoleDialog st (some uid) target
      = { st with errorToasts := st.errorToasts ++ ["Você não pode alterar sua própria permissão"] } := by
    simp [openRoleDialog, hself]
  refine ⟨?_, ?_, ?_, ?_, ?_⟩
  · rw [hopen]
    exact hdlg
  · rw [hopen]
    exact hsel
  · rw [hopen]
  · rw [hopen]
  · intro db b
    rw [hopen]
    simp [handleRoleChange, hsel]

/-- Witness for C8: admin 1 targeting themselves from the initial page
state. -/
theorem self_role_change_blocked_witness :
    (openRoleDialog ⟨none, none, false, [], [], [], 0⟩ (some 1) ⟨1, "Ana", Role.admin⟩).isDialogOpen
      = false
    ∧ handleRoleChange
        (openRoleDialog ⟨none, none, false, [], [], [], 0⟩ (some 1) ⟨1, "Ana", Role.admin⟩)
        [⟨1, Role.admin⟩] false
      = (openRoleDialog ⟨none, none, false, [], [], [], 0⟩ (some 1) ⟨1, "Ana", Role.admin⟩,
         [⟨1, Role.admin⟩]) :=
  ⟨(self_role_change_blocked ⟨none, none, false, [], [], [], 0⟩ 1 ⟨1, "Ana", Role.admin⟩
      rfl rfl rfl).1,
   (self_role_change_blocked ⟨none, none, false, [], [], [], 0⟩ 1 ⟨1, "Ana", Role.admin⟩
      rfl rfl rfl).2.2.2.2 [⟨1, Role.admin⟩] false⟩

/-- C9 counterexample: deleting a document whose storage removal succeeds
but whose database delete then fails leaves the mutation partially
applied: the storage object is gone while the database row survives, so a
step of the multi-step mutation took effect although a later step failed. -/
theorem partial_delete_counterexample :
    (handleDelete [sampleDoc] ["7/1_a.pdf"] [sampleDoc] sampleDoc false true).errorShown = true
    ∧ (handleDelete [sampleDoc] ["7/1_a.pdf"] [sampleDoc] sampleDoc false true).storage = []
    ∧ (handleDelete [sampleDoc] ["7/1_a.pdf"] [sampleDoc] sampleDoc false true).dbDocs
        = [sampleDoc] := by
  refine ⟨rfl, ?_, rfl⟩
  decide

/-- C9 amended: on any backend failure the component surfaces an error and
leaves its document list and `documents` table (the prior UI state) intact,
and a mutation whose first step fails changes nothing at all; but a step
that succeeded before a later failing step stays applied: the document
delete's storage removal persists when the database row delete then
fails. -/
theorem mutation_failure_ui_intact
    (uiDocs : List DocRow) (storage : List String) (dbDocs : List DocRow) (doc : DocRow)
    (contractId fileSize timestamp nextId : Nat) (fileName fileType : String)
    (uploader : Option Nat) (sf dbf : Bool) :
    ((sf = true ∨ dbf = true) →
      (handleDelete uiDocs storage dbDocs doc sf dbf).uiDocs = uiDocs
      ∧ (handleDelete uiDocs storage dbDocs doc sf dbf).errorShown = true
      ∧ (handleDelete uiDocs storage dbDocs doc sf dbf).successShown = false)
    ∧ (sf = true →
        handleDelete uiDocs storage dbDocs doc sf dbf = ⟨uiDocs, storage, dbDocs, true, false⟩)
    ∧ (sf = false → dbf = true →
        (handleDelete uiDocs storage dbDocs doc sf dbf).dbDocs = dbDocs
        ∧ (handleDelete uiDocs storage dbDocs doc sf dbf).storage
            = storage.filter (fun p => !(p == doc.file_path)))
    ∧ ((sf = true ∨ dbf = true) →
        (handleUpload uiDocs storage dbDocs contractId fileName fileType fileSize timestamp
            uploader nextId sf dbf).uiDocs = uiDocs
        ∧ (handleUpload uiDocs storage dbDocs contractId fileName fileType fileSize timestamp
            uploader nextId sf dbf).dbDocs = dbDocs
        ∧ (handleUpload uiDocs storage dbDocs contractId fileName fileType fileSize timestamp
            uploader nextId sf dbf).errorShown = true) := by
  refine ⟨?_, ?_, ?_, ?_⟩
  · rintro (h | h) <;> subst h
    · simp [handleDelete]
    · cases sf <;> simp [handleDelete]
  · intro h
    subst h
    simp [handleDelete]
  · intro h1 h2
    subst h1
    subst h2
    simp [handleDelete]
  · rintro (h | h) <;> subst h <;>
      simp only [handleUpload] <;> split_ifs <;> simp_all

/-- Witness for C9 (amended): a failing storage removal on a concrete
document changes nothing, and a failing database insert after a concrete
successful upload leaves the table and UI list intact. -/
theorem mutation_failure_ui_intact_witness :
    handleDelete [sampleDoc] ["7/1_a.pdf"] [sampleDoc] sampleDoc true false
      = ⟨[sampleDoc], ["7/1_a.pdf"], [sampleDoc], true, false⟩
    ∧ (handleUpload [] [] [] 7 "b.pdf" "application/pdf" 10 99 (some 2) 5 false true).dbDocs
        = [] :=
  ⟨(mutation_failure_ui_intact [sampleDoc] ["7/1_a.pdf"] [sampleDoc] sampleDoc
      7 10 99 5 "b.pdf" "application/pdf" (some 2) true false).2.1 rfl,
   ((mutation_failure_ui_intact [] [] [] sampleDoc
      7 10 99 5 "b.pdf" "application/pdf" (some 2) false true).2.2.2 (Or.inr rfl)).2.1⟩

/-- C10: submitting a role change for a target with no `user_roles` row
matches zero rows, yet the operation reports success: the success toast is
appended, the dialog closes, the selection clears, the list is refetched,
the table is unchanged, no error is raised, and the target still resolves
to the visualizador fallback. -/
theorem zero_row_role_update (st : UsersState) (db : List UserRoleRow)
    (sel : UserWithRole) (nr : Role)
    (hsel : st.selectedUser = some sel) (hnr : st.newRole = some nr)
    (hnorow : ∀ row ∈ db, row.user_id ≠ sel.user_id) :
    handleRoleChange st db false
      = ({ st with updateRequests := st.updateRequests ++ [(sel.user_id, nr)],
                   successToasts := st.successToasts ++
                     ["Permissão de " ++ sel.full_name ++ " atualizada para " ++ roleLabel nr],
                   isDialogOpen := false, selectedUser := none, newRole := none,
                   refetches := st.refetches + 1 }, db)
    ∧ resolveRole db sel.user_id = Role.visualizador := by
  have hupd : updateUserRole db sel.user_id nr = db := by
    rw [updateUserRole]
    have hcongr : ∀ row ∈ db,
        (if row.user_id == sel.user_id then { row with role := nr } else row) = id row := by
      intro row hrow
      simp [hnorow row hrow]
    rw [List.map_congr_left hcongr, List.map_id]
  constructor
  · simp [handleRoleChange, hsel, hnr, hupd]
  · exact resolveRole_of_no_row db sel.user_id hnorow

/-- Witness for C10: admin changes the role of user 2, who has no role
row, over a store holding only a row for user 1. -/
theorem zero_row_role_update_witness :
    handleRoleChange ⟨some ⟨2, "Bob", Role.visualizador⟩, some Role.gestor, true, [], [], [], 0⟩
        [⟨1, Role.admin⟩] false
      = (⟨none, none, false, [], ["Permissão de Bob atualizada para Gestor"],
          [(2, Role.gestor)], 1⟩, [⟨1, Role.admin⟩])
    ∧ resolveRole [⟨1, Role.admin⟩] 2 = Role.visualizador :=
  ⟨(zero_row_role_update ⟨some ⟨2, "Bob", Role.visualizador⟩, some Role.gestor, true, [], [], [], 0⟩
      [⟨1, Role.admin⟩] ⟨2, "Bob", Role.visualizador⟩ Role.gestor rfl rfl (by decide)).1,
   (zero_row_role_update ⟨some ⟨2, "Bob", Role.visualizador⟩, some Role.gestor, true, [], [], [], 0⟩
      [⟨1, Role.admin⟩] ⟨2, "Bob", Role.visualizador⟩ Role.gestor rfl rfl (by decide)).2⟩

end Controle
